import Mathlib

/-
Verification development for the admin-ozu delivery-logistics application.

Part I models the shipment status-transition engine (Transition Guard,
Notification Dispatcher, Delivery Idempotency Ledger, Status Store).  The
backend implementing these components is referenced by the repository (the
bug-report document and the UI callers) but its code is not part of the
repository, so those definitions are modelled from the specification text.
Because the spec serializes all per-shipment work under an exclusive
per-`shipmentId` lock, concurrent or retried calls are modelled as an
arbitrary finite sequence of serialized calls.

Part II embeds the client-side `CacheManager` (TTL key-value cache over
localStorage plus an in-memory map) and the `IssuesAPI` fetch logic, which
are present in the repository source.
-/

namespace Ozu

/-- Modelled from the spec: the closed enumeration of shipment statuses
(`created, assigned, picked_up, delivered, issue_reported, resolved`); the
backend Status Store is not part of the repository source. -/
inductive Status where
  | created
  | assigned
  | picked_up
  | delivered
  | issue_reported
  | resolved
deriving DecidableEq, Repr

/-- Modelled from the spec: the fixed transition-legality table of §4.2 step 3
(`created→assigned`, `assigned→picked_up`, `picked_up→delivered`,
`assigned|picked_up→issue_reported`, `issue_reported→assigned|picked_up`,
`issue_reported→resolved`; any other pair is illegal); the backend Transition
Guard is not part of the repository source. -/
def legalTransition : Status → Status → Bool
  | .created, .assigned => true
  | .assigned, .picked_up => true
  | .picked_up, .delivered => true
  | .assigned, .issue_reported => true
  | .picked_up, .issue_reported => true
  | .issue_reported, .assigned => true
  | .issue_reported, .picked_up => true
  | .issue_reported, .resolved => true
  | _, _ => false

/-- Modelled from the spec: notification recipient roles (`rider`, `admin`,
plus the optional `customer` of the dispatch table); the backend directory
is not part of the repository source. -/
inductive Role where
  | rider
  | admin
  | customer
deriving DecidableEq, Repr

/-- Modelled from the spec: the fixed recipient table of §4.3, keyed by the
target status the Dispatcher receives (`dispatch(shipmentId, transition,
actor)` is invoked with the target status only); the backend Dispatcher is
not part of the repository source. -/
def recipientsFor : Status → List Role
  | .created => []
  | .assigned => [.rider]
  | .picked_up => [.rider, .admin]
  | .delivered => [.admin]
  | .issue_reported => [.admin]
  | .resolved => [.rider]

/-- Modelled from the spec: the Delivery Idempotency Ledger key
`(shipmentId, transitionTo, recipientRole)`; the backend Ledger is not part
of the repository source. -/
structure NotifKey where
  shipmentId : Nat
  transitionTo : Status
  recipientRole : Role
deriving DecidableEq, Repr

/-- Modelled from the spec: a Ledger entry, a NotificationRecord with its
`sentAt` timestamp; the backend Ledger is not part of the repository
source. -/
structure NotificationRecord where
  key : NotifKey
  sentAt : Nat
deriving DecidableEq, Repr

/-- Number of ledger records carrying the key `k`. -/
def countKey (l : List NotificationRecord) (k : NotifKey) : Nat :=
  l.countP (fun r => decide (r.key = k))

/-- Whether the ledger already holds a record for the key `k`. -/
def hasKey (l : List NotificationRecord) (k : NotifKey) : Bool :=
  l.any (fun r => decide (r.key = k))

/-- Modelled from the spec: the Ledger's atomic insert-if-absent operation
`tryRecord(key) → inserted: true | inserted: false` of §4.4; the backend
Ledger is not part of the repository source. -/
def tryRecord (l : List NotificationRecord) (k : NotifKey) (now : Nat) :
    Bool × List NotificationRecord :=
  if hasKey l k then (false, l) else (true, l ++ [⟨k, now⟩])

/-- Modelled from the spec: the observable state of the Dispatcher and its
collaborators — the Ledger, the log of message-send attempts on the delivery
channel, the surfaced delivery failures, and how many times the Dispatcher
was invoked; the backend Dispatcher is not part of the repository source. -/
structure DispatchState where
  ledger : List NotificationRecord
  sends : List NotifKey
  failures : List NotifKey
  dispatchCalls : Nat
deriving DecidableEq, Repr

/-- Number of occurrences of the key `k` in a list of keys. -/
def keyCount (l : List NotifKey) (k : NotifKey) : Nat :=
  l.countP (fun x => decide (x = k))

/-- Number of message-send attempts made for the key `k`. -/
def sendCount (s : DispatchState) (k : NotifKey) : Nat :=
  keyCount s.sends k

/-- Modelled from the spec: the Dispatcher's per-recipient step of §4.3
(attempt `tryRecord`; on insert success send one message, recording but not
retrying a delivery failure; on insert failure skip sending entirely);
`sendOk` abstracts the external delivery channel's outcome.  The backend
Dispatcher is not part of the repository source. -/
def dispatchOne (sendOk : NotifKey → Bool) (now : Nat) (s : DispatchState)
    (k : NotifKey) : DispatchState :=
  let p := tryRecord s.ledger k now
  if p.1 then
    { s with
      ledger := p.2
      sends := s.sends ++ [k]
      failures := if sendOk k then s.failures else s.failures ++ [k] }
  else
    { s with ledger := p.2 }

/-- The Ledger key for one recipient of one transition of one shipment. -/
def mkKey (shipmentId : Nat) (target : Status) (r : Role) : NotifKey :=
  ⟨shipmentId, target, r⟩

/-- Folding the Dispatcher's per-recipient step over a recipient list. -/
def foldD (sendOk : NotifKey → Bool) (now : Nat) (shipmentId : Nat)
    (target : Status) (rs : List Role) (s : DispatchState) : DispatchState :=
  rs.foldl (fun st r => dispatchOne sendOk now st (mkKey shipmentId target r)) s

/-- Modelled from the spec: `dispatch(shipmentId, transition, actor)` of
§4.3 — one Dispatcher invocation processes every recipient mapped for the
transition; the backend Dispatcher is not part of the repository source. -/
def dispatch (sendOk : NotifKey → Bool) (now : Nat) (shipmentId : Nat)
    (target : Status) (s : DispatchState) : DispatchState :=
  foldD sendOk now shipmentId target (recipientsFor target)
    { s with dispatchCalls := s.dispatchCalls + 1 }

/-- Modelled from the spec: one `statusHistory` entry
`(status, timestamp, actor)`; the backend Status Store is not part of the
repository source. -/
structure HistoryEntry where
  status : Status
  timestamp : Nat
  actor : String
deriving DecidableEq, Repr

/-- Modelled from the spec: the persisted Shipment record with its `status`
field and append-only `statusHistory`; the backend Status Store is not part
of the repository source. -/
structure Shipment where
  id : Nat
  status : Status
  statusHistory : List HistoryEntry
deriving DecidableEq, Repr

/-- Modelled from the spec: `TransitionResult{applied, reason?}` returned by
the Transition Guard; the backend Guard is not part of the repository
source. -/
structure TransitionResult where
  applied : Bool
  reason : Option String
deriving DecidableEq, Repr

/-- Combined state of one shipment together with the Dispatcher state. -/
structure SysState where
  shipment : Shipment
  notif : DispatchState
deriving DecidableEq, Repr

/-- Modelled from the spec: the Transition Guard's
`requestTransition(shipmentId, targetStatus, actor)` of §4.2, executed under
the exclusive per-shipment lock: read the current status; if it already
equals the target, return the `already_in_state` no-op without touching any
state; if the move is not in the legality table, return `illegal_transition`
without side effects; otherwise append to the history, set the status and
invoke the Dispatcher exactly once.  The backend Guard is not part of the
repository source. -/
def requestTransition (sendOk : NotifKey → Bool) (now : Nat) (actor : String)
    (target : Status) (s : SysState) : TransitionResult × SysState :=
  if s.shipment.status = target then
    ({ applied := false, reason := some ("already_in_state") }, s)
  else if legalTransition s.shipment.status target then
    ({ applied := true, reason := none },
      { shipment :=
          { s.shipment with
            status := target
            statusHistory := s.shipment.statusHistory ++ [⟨target, now, actor⟩] }
        notif := dispatch sendOk now s.shipment.id target s.notif })
  else
    ({ applied := false, reason := some ("illegal_transition") }, s)

/-- A finite sequence of serialized `requestTransition` calls for the same
target (the spec's model of concurrent or retried triggers, which the
per-shipment lock serializes), returning every result in order together with
the final state. -/
def runCalls (sendOk : NotifKey → Bool) (now : Nat) (actor : String)
    (target : Status) : Nat → SysState → List TransitionResult × SysState
  | 0, s => ([], s)
  | Nat.succ m, s =>
    let p := requestTransition sendOk now actor target s
    let q := runCalls sendOk now actor target m p.2
    (p.1 :: q.1, q.2)

/-- The Status-Store invariant: `status` equals the status of the last entry
of `statusHistory`. -/
def statusInv (sh : Shipment) : Prop :=
  sh.statusHistory.getLast?.map HistoryEntry.status = some sh.status

instance (sh : Shipment) : Decidable (statusInv sh) :=
  inferInstanceAs
    (Decidable (sh.statusHistory.getLast?.map HistoryEntry.status = some sh.status))

/-- A ledger holds no record for a key exactly when that key's record count
is zero. -/
theorem hasKey_eq_false_iff (l : List NotificationRecord) (k : NotifKey) :
    hasKey l k = false ↔ countKey l k = 0 := by
  simp [hasKey, countKey, List.countP_eq_zero]

/-- Record counts add over ledger concatenation. -/
theorem countKey_append (l₁ l₂ : List NotificationRecord) (k : NotifKey) :
    countKey (l₁ ++ l₂) k = countKey l₁ k + countKey l₂ k :=
  List.countP_append _ l₁ l₂

/-- Key counts add over concatenation of key lists. -/
theorem keyCount_append (l₁ l₂ : List NotifKey) (k : NotifKey) :
    keyCount (l₁ ++ l₂) k = keyCount l₁ k + keyCount l₂ k :=
  List.countP_append _ l₁ l₂

/-- `tryRecord` on a key already present reports no insertion and leaves the
ledger unchanged. -/
theorem tryRecord_of_hasKey {l : List NotificationRecord} {k : NotifKey}
    (n : Nat) (h : hasKey l k = true) : tryRecord l k n = (false, l) := by
  simp [tryRecord, h]

/-- `tryRecord` on an absent key inserts exactly one new record at the end. -/
theorem tryRecord_of_not_hasKey {l : List NotificationRecord} {k : NotifKey}
    (n : Nat) (h : hasKey l k = false) :
    tryRecord l k n = (true, l ++ [⟨k, n⟩]) := by
  simp [tryRecord, h]

/-- When the ledger already holds the key, the Dispatcher's per-recipient
step does nothing at all. -/
theorem dispatchOne_of_hasKey {s : DispatchState} {k : NotifKey}
    (f : NotifKey → Bool) (n : Nat) (h : hasKey s.ledger k = true) :
    dispatchOne f n s k = s := by
  simp [dispatchOne, tryRecord_of_hasKey n h]

/-- When the key is absent, the Dispatcher's per-recipient step inserts the
record, performs one send attempt, and surfaces a failure exactly when the
channel fails. -/
theorem dispatchOne_of_not_hasKey {s : DispatchState} {k : NotifKey}
    (f : NotifKey → Bool) (n : Nat) (h : hasKey s.ledger k = false) :
    dispatchOne f n s k =
      { ledger := s.ledger ++ [⟨k, n⟩]
        sends := s.sends ++ [k]
        failures := if f k then s.failures else s.failures ++ [k]
        dispatchCalls := s.dispatchCalls } := by
  simp [dispatchOne, tryRecord_of_not_hasKey n h]

/-- Effect of one per-recipient step on the record count of an arbitrary
key. -/
theorem countKey_dispatchOne (f : NotifKey → Bool) (n : Nat)
    (s : DispatchState) (k' k : NotifKey) :
    countKey (dispatchOne f n s k').ledger k =
      if countKey s.ledger k = 0 ∧ k' = k then 1 else countKey s.ledger k := by
  by_cases hkk : k' = k
  · subst hkk
    rcases hk : hasKey s.ledger k' with _ | _
    · have h0 : countKey s.ledger k' = 0 := (hasKey_eq_false_iff _ _).mp hk
      have hc : countKey s.ledger k' = 0 ∧ k' = k' := ⟨h0, rfl⟩
      rw [dispatchOne_of_not_hasKey f n hk, if_pos hc]
      show countKey (s.ledger ++ [⟨k', n⟩]) k' = 1
      rw [countKey_append, h0]
      simp [countKey]
    · have h0 : countKey s.ledger k' ≠ 0 := by
        intro h
        rw [← hasKey_eq_false_iff] at h
        rw [h] at hk
        exact Bool.false_ne_true hk
      rw [dispatchOne_of_hasKey f n hk, if_neg (fun hcon => h0 hcon.1)]
  · rw [if_neg (fun hcon => hkk hcon.2)]
    rcases hk : hasKey s.ledger k' with _ | _
    · rw [dispatchOne_of_not_hasKey f n hk]
      show countKey (s.ledger ++ [⟨k', n⟩]) k = countKey s.ledger k
      rw [countKey_append]
      have hone : countKey [(⟨k', n⟩ : NotificationRecord)] k = 0 := by
        simp [countKey, hkk]
      rw [hone, Nat.add_zero]
    · rw [dispatchOne_of_hasKey f n hk]

/-- Effect of one per-recipient step on the send count of an arbitrary
key. -/
theorem sendCount_dispatchOne (f : NotifKey → Bool) (n : Nat)
    (s : DispatchState) (k' k : NotifKey) :
    sendCount (dispatchOne f n s k') k =
      sendCount s k + (if countKey s.ledger k = 0 ∧ k' = k then 1 else 0) := by
  by_cases hkk : k' = k
  · subst hkk
    rcases hk : hasKey s.ledger k' with _ | _
    · have h0 : countKey s.ledger k' = 0 := (hasKey_eq_false_iff _ _).mp hk
      have hc : countKey s.ledger k' = 0 ∧ k' = k' := ⟨h0, rfl⟩
      rw [dispatchOne_of_not_hasKey f n hk, if_pos hc]
      show keyCount (s.sends ++ [k']) k' = keyCount s.sends k' + 1
      rw [keyCount_append]
      simp [keyCount]
    · have h0 : countKey s.ledger k' ≠ 0 := by
        intro h
        rw [← hasKey_eq_false_iff] at h
        rw [h] at hk
        exact Bool.false_ne_true hk
      rw [dispatchOne_of_hasKey f n hk, if_neg (fun hcon => h0 hcon.1)]
      simp
  · rw [if_neg (fun hcon => hkk hcon.2)]
    rcases hk : hasKey s.ledger k' with _ | _
    · rw [dispatchOne_of_not_hasKey f n hk]
      show keyCount (s.sends ++ [k']) k = keyCount s.sends k + 0
      rw [keyCount_append]
      simp [keyCount, hkk]
    · rw [dispatchOne_of_hasKey f n hk]
      simp

/-- One per-recipient step never invokes the Dispatcher again. -/
theorem dispatchCalls_dispatchOne (f : NotifKey → Bool) (n : Nat)
    (s : DispatchState) (k' : NotifKey) :
    (dispatchOne f n s k').dispatchCalls = s.dispatchCalls := by
  rcases hk : hasKey s.ledger k' with _ | _
  · rw [dispatchOne_of_not_hasKey f n hk]
  · rw [dispatchOne_of_hasKey f n hk]

/-- Surfaced failures are never removed by a per-recipient step. -/
theorem failures_mono_dispatchOne (f : NotifKey → Bool) (n : Nat)
    (s : DispatchState) (k' k : NotifKey) (h : k ∈ s.failures) :
    k ∈ (dispatchOne f n s k').failures := by
  rcases hk : hasKey s.ledger k' with _ | _
  · rw [dispatchOne_of_not_hasKey f n hk]
    by_cases hf : f k'
    · simpa [hf] using h
    · simp [hf]
      exact Or.inl h
  · rw [dispatchOne_of_hasKey f n hk]
    exact h

/-- A fresh insert whose send fails is surfaced as a delivery failure. -/
theorem failures_dispatchOne_of_sendFail (f : NotifKey → Bool) (n : Nat)
    (s : DispatchState) (k : NotifKey) (hf : f k = false)
    (hk : hasKey s.ledger k = false) :
    k ∈ (dispatchOne f n s k).failures := by
  rw [dispatchOne_of_not_hasKey f n hk]
  simp [hf]

/-- Combined effect of the Dispatcher's recipient fold on the observables tied
to one recipient's key: the record count becomes one exactly on a fresh key of
a processed recipient, the send count grows accordingly, the invocation
counter is untouched, surfaced failures persist, and a failed fresh send is
surfaced. -/
theorem foldD_spec (f : NotifKey → Bool) (n : Nat) (sid : Nat)
    (target : Status) (r : Role) (rs : List Role) (s : DispatchState) :
    countKey (foldD f n sid target rs s).ledger (mkKey sid target r) =
      (if countKey s.ledger (mkKey sid target r) = 0 ∧ r ∈ rs then 1
       else countKey s.ledger (mkKey sid target r))
    ∧ sendCount (foldD f n sid target rs s) (mkKey sid target r) =
      sendCount s (mkKey sid target r)
        + (if countKey s.ledger (mkKey sid target r) = 0 ∧ r ∈ rs then 1 else 0)
    ∧ (foldD f n sid target rs s).dispatchCalls = s.dispatchCalls
    ∧ (mkKey sid target r ∈ s.failures →
        mkKey sid target r ∈ (foldD f n sid target rs s).failures)
    ∧ (f (mkKey sid target r) = false →
        countKey s.ledger (mkKey sid target r) = 0 → r ∈ rs →
        mkKey sid target r ∈ (foldD f n sid target rs s).failures) := by
  induction rs generalizing s with
  | nil => simp [foldD]
  | cons ρ rs ih =>
    obtain ⟨ih1, ih2, ih3, ih4, ih5⟩ := ih (dispatchOne f n s (mkKey sid target ρ))
    have hstep : foldD f n sid target (ρ :: rs) s
        = foldD f n sid target rs (dispatchOne f n s (mkKey sid target ρ)) := rfl
    rw [hstep]
    have hckey := countKey_dispatchOne f n s (mkKey sid target ρ) (mkKey sid target r)
    have hskey := sendCount_dispatchOne f n s (mkKey sid target ρ) (mkKey sid target r)
    have hcalls := dispatchCalls_dispatchOne f n s (mkKey sid target ρ)
    by_cases hρ : ρ = r
    · subst hρ
      by_cases h0 : countKey s.ledger (mkKey sid target ρ) = 0
      · have hc : countKey s.ledger (mkKey sid target ρ) = 0
            ∧ mkKey sid target ρ = mkKey sid target ρ := ⟨h0, rfl⟩
        rw [if_pos hc] at hckey hskey
        refine ⟨?_, ?_, ?_, ?_, ?_⟩
        · rw [ih1, hckey]
          simp [h0]
        · rw [ih2, hskey, hckey]
          simp [h0]
        · rw [ih3, hcalls]
        · intro hmem
          exact ih4 (failures_mono_dispatchOne f n s _ _ hmem)
        · intro hf _ _
          exact ih4 (failures_dispatchOne_of_sendFail f n s _ hf
            ((hasKey_eq_false_iff _ _).mpr h0))
      · have hc : ¬ (countKey s.ledger (mkKey sid target ρ) = 0
            ∧ mkKey sid target ρ = mkKey sid target ρ) := fun hcon => h0 hcon.1
        rw [if_neg hc] at hckey hskey
        refine ⟨?_, ?_, ?_, ?_, ?_⟩
        · rw [ih1, hckey]
          simp [h0]
        · rw [ih2, hskey, hckey]
          simp [h0]
        · rw [ih3, hcalls]
        · intro hmem
          exact ih4 (failures_mono_dispatchOne f n s _ _ hmem)
        · intro _ hc0 _
          exact absurd hc0 h0
    · have hkk : ¬ mkKey sid target ρ = mkKey sid target r := by
        simp [mkKey, hρ]
      have hc : ¬ (countKey s.ledger (mkKey sid target r) = 0
          ∧ mkKey sid target ρ = mkKey sid target r) := fun hcon => hkk hcon.2
      rw [if_neg hc] at hckey hskey
      have hmemiff : (r ∈ ρ :: rs) ↔ r ∈ rs := by
        constructor
        · intro h
          rcases List.mem_cons.mp h with h1 | h1
          · exact absurd h1.symm hρ
          · exact h1
        · intro h
          exact List.mem_cons_of_mem ρ h
      refine ⟨?_, ?_, ?_, ?_, ?_⟩
      · rw [ih1, hckey]
        by_cases h0 : countKey s.ledger (mkKey sid target r) = 0
        · simp [h0, hmemiff]
        · simp [h0]
      · rw [ih2, hskey, hckey]
        by_cases h0 : countKey s.ledger (mkKey sid target r) = 0
        · simp [h0, hmemiff]
        · simp [h0]
      · rw [ih3, hcalls]
      · intro hmem
        exact ih4 (failures_mono_dispatchOne f n s _ _ hmem)
      · intro hf hc0 hmem
        refine ih5 hf ?_ (hmemiff.mp hmem)
        rw [hckey]
        exact hc0

/-- The Guard's `already_in_state` branch returns the no-op result and leaves
the whole state untouched. -/
theorem requestTransition_noop (f : NotifKey → Bool) (n : Nat) (a : String)
    (target : Status) (s : SysState) (h : s.shipment.status = target) :
    requestTransition f n a target s =
      ({ applied := false, reason := some ("already_in_state") }, s) := by
  simp [requestTransition, h]

/-- The Guard's `illegal_transition` branch returns the rejection result and
leaves the whole state untouched. -/
theorem requestTransition_illegal_eq (f : NotifKey → Bool) (n : Nat)
    (a : String) (target : Status) (s : SysState)
    (h1 : ¬ s.shipment.status = target)
    (h2 : legalTransition s.shipment.status target = false) :
    requestTransition f n a target s =
      ({ applied := false, reason := some ("illegal_transition") }, s) := by
  simp [requestTransition, h1, h2]

/-- The Guard's successful branch: one history append, the new status, and one
Dispatcher invocation. -/
theorem requestTransition_applies (f : NotifKey → Bool) (n : Nat) (a : String)
    (target : Status) (s : SysState) (h1 : ¬ s.shipment.status = target)
    (h2 : legalTransition s.shipment.status target = true) :
    requestTransition f n a target s =
      ({ applied := true, reason := none },
        { shipment :=
            { id := s.shipment.id
              status := target
              statusHistory := s.shipment.statusHistory ++ [⟨target, n, a⟩] }
          notif := dispatch f n s.shipment.id target s.notif }) := by
  simp [requestTransition, h1, h2]

/-- Once the shipment already carries the target status, any number of further
serialized calls are pure no-ops that leave the whole state untouched. -/
theorem runCalls_noop (f : NotifKey → Bool) (n : Nat) (a : String)
    (target : Status) (m : Nat) (s : SysState)
    (h : s.shipment.status = target) :
    runCalls f n a target m s =
      (List.replicate m { applied := false, reason := some ("already_in_state") },
        s) := by
  induction m with
  | zero => simp [runCalls]
  | succ m ih =>
    simp [runCalls, requestTransition_noop f n a target s h, ih,
      List.replicate_succ]

/-- Shipment #26 of the bug report, currently `assigned`, with a consistent
history. -/
def exShipment : Shipment :=
  ⟨26, .assigned, [⟨.created, 0, ("admin")⟩, ⟨.assigned, 1, ("admin")⟩]⟩

/-- Shipment #26 in the `assigned` state with an empty Dispatcher state. -/
def exState : SysState := ⟨exShipment, ⟨[], [], [], 0⟩⟩

/-- Shipment #26 already `picked_up`, with an empty Dispatcher state. -/
def exStatePicked : SysState :=
  ⟨⟨26, .picked_up, [⟨.picked_up, 1, ("rider")⟩]⟩, ⟨[], [], [], 0⟩⟩

/-- A freshly created shipment with an empty Dispatcher state. -/
def exStateCreated : SysState :=
  ⟨⟨26, .created, [⟨.created, 0, ("admin")⟩]⟩, ⟨[], [], [], 0⟩⟩

/-- A delivery channel on which every send succeeds. -/
def allOk : NotifKey → Bool := fun _ => true

/-- A delivery channel on which every send fails. -/
def allFail : NotifKey → Bool := fun _ => false

/-- Claim C1: for every shipment and target status, any number of serialized
(concurrent-or-retried) `requestTransition` calls requesting the same legal
transition result in exactly one applied status change, exactly one
Notification Dispatcher invocation, and exactly one NotificationRecord for
each mapped recipient of that transition. -/
theorem idempotent_requestTransition (f : NotifKey → Bool) (n : Nat)
    (a : String) (target : Status) (s : SysState) (m : Nat) (r : Role)
    (hne : ¬ s.shipment.status = target)
    (hlegal : legalTransition s.shipment.status target = true)
    (hfresh : hasKey s.notif.ledger (mkKey s.shipment.id target r) = false)
    (hr : r ∈ recipientsFor target) :
    ((runCalls f n a target (m + 1) s).1.filter (fun tr => tr.applied)).length = 1
    ∧ (runCalls f n a target (m + 1) s).2.notif.dispatchCalls
        = s.notif.dispatchCalls + 1
    ∧ (runCalls f n a target (m + 1) s).2.shipment.status = target
    ∧ countKey (runCalls f n a target (m + 1) s).2.notif.ledger
        (mkKey s.shipment.id target r) = 1 := by
  have happ := requestTransition_applies f n a target s hne hlegal
  have hnoop := runCalls_noop f n a target m
    ({ shipment :=
        { id := s.shipment.id
          status := target
          statusHistory := s.shipment.statusHistory ++ [⟨target, n, a⟩] }
       notif := dispatch f n s.shipment.id target s.notif } : SysState) rfl
  have hrun : runCalls f n a target (m + 1) s =
      (({ applied := true, reason := none } : TransitionResult) ::
          List.replicate m { applied := false, reason := some ("already_in_state") },
        { shipment :=
            { id := s.shipment.id
              status := target
              statusHistory := s.shipment.statusHistory ++ [⟨target, n, a⟩] }
          notif := dispatch f n s.shipment.id target s.notif }) := by
    simp only [runCalls]
    rw [happ]
    simp only []
    rw [hnoop]
  have h0 : countKey s.notif.ledger (mkKey s.shipment.id target r) = 0 :=
    (hasKey_eq_false_iff _ _).mp hfresh
  refine ⟨?_, ?_, ?_, ?_⟩
  · rw [hrun]
    simp [List.filter_replicate]
  · rw [hrun]
    show (dispatch f n s.shipment.id target s.notif).dispatchCalls
      = s.notif.dispatchCalls + 1
    unfold dispatch
    rw [(foldD_spec f n s.shipment.id target r (recipientsFor target) _).2.2.1]
  · rw [hrun]
  · rw [hrun]
    show countKey (dispatch f n s.shipment.id target s.notif).ledger
      (mkKey s.shipment.id target r) = 1
    unfold dispatch
    rw [(foldD_spec f n s.shipment.id target r (recipientsFor target) _).1]
    simp [h0, hr]

/-- Witness for C1: three serialized pickup calls on shipment #26 in the
`assigned` state change the status once, invoke the Dispatcher once, and leave
one rider NotificationRecord. -/
theorem idempotent_requestTransition_witness :
    (¬ exState.shipment.status = Status.picked_up
      ∧ legalTransition exState.shipment.status Status.picked_up = true
      ∧ hasKey exState.notif.ledger
          (mkKey exState.shipment.id Status.picked_up Role.rider) = false
      ∧ Role.rider ∈ recipientsFor Status.picked_up)
    ∧ (((runCalls allOk 5 ("rider") Status.picked_up (2 + 1) exState).1.filter
          (fun tr => tr.applied)).length = 1
      ∧ (runCalls allOk 5 ("rider") Status.picked_up (2 + 1) exState).2.notif.dispatchCalls
          = exState.notif.dispatchCalls + 1
      ∧ (runCalls allOk 5 ("rider") Status.picked_up (2 + 1) exState).2.shipment.status
          = Status.picked_up
      ∧ countKey
          (runCalls allOk 5 ("rider") Status.picked_up (2 + 1) exState).2.notif.ledger
          (mkKey exState.shipment.id Status.picked_up Role.rider) = 1) :=
  ⟨⟨by decide, by decide, by decide, by decide⟩,
    idempotent_requestTransition allOk 5 ("rider") Status.picked_up exState 2
      Role.rider (by decide) (by decide) (by decide) (by decide)⟩

/-- Claim C2: when the current status already equals the requested target,
`requestTransition` returns `applied: false` with reason `already_in_state`,
does not invoke the Notification Dispatcher, and causes zero additional
message sends — in fact the whole state is untouched. -/
theorem requestTransition_already_in_state (f : NotifKey → Bool) (n : Nat)
    (a : String) (target : Status) (s : SysState)
    (h : s.shipment.status = target) :
    (requestTransition f n a target s).1.applied = false
    ∧ (requestTransition f n a target s).1.reason = some ("already_in_state")
    ∧ (requestTransition f n a target s).2.notif.dispatchCalls
        = s.notif.dispatchCalls
    ∧ (requestTransition f n a target s).2.notif.sends = s.notif.sends
    ∧ (requestTransition f n a target s).2 = s := by
  rw [requestTransition_noop f n a target s h]
  exact ⟨rfl, rfl, rfl, rfl, rfl⟩

/-- Witness for C2: a second pickup request on an already `picked_up`
shipment is the specified no-op. -/
theorem requestTransition_already_in_state_witness :
    exStatePicked.shipment.status = Status.picked_up
    ∧ ((requestTransition allOk 2 ("rider") Status.picked_up exStatePicked).1.applied = false
      ∧ (requestTransition allOk 2 ("rider") Status.picked_up exStatePicked).1.reason
          = some ("already_in_state")
      ∧ (requestTransition allOk 2 ("rider") Status.picked_up exStatePicked).2.notif.dispatchCalls
          = exStatePicked.notif.dispatchCalls
      ∧ (requestTransition allOk 2 ("rider") Status.picked_up exStatePicked).2.notif.sends
          = exStatePicked.notif.sends
      ∧ (requestTransition allOk 2 ("rider") Status.picked_up exStatePicked).2
          = exStatePicked) :=
  ⟨by decide,
    requestTransition_already_in_state allOk 2 ("rider") Status.picked_up
      exStatePicked (by decide)⟩

/-- Claim C3: the Ledger holds at most one NotificationRecord per key, ever —
`tryRecord` preserves the at-most-one bound for every key, only ever appends
(never updates or deletes an existing record), succeeds on the first attempt
for a fresh key and fails on the duplicate attempt while leaving the ledger
unchanged; consequently, of two serialized dispatch attempts for the same
key, exactly one message is sent and exactly one record exists. -/
theorem ledger_tryRecord_unique (l : List NotificationRecord) (k k' : NotifKey)
    (n n' : Nat) (f : NotifKey → Bool) (s : DispatchState)
    (hk : hasKey l k = false) (hk' : countKey l k' ≤ 1)
    (hs : hasKey s.ledger k = false) :
    countKey (tryRecord l k n).2 k' ≤ 1
    ∧ (tryRecord l k n).2 = l ++ [⟨k, n⟩]
    ∧ (tryRecord l k n).1 = true
    ∧ tryRecord ((tryRecord l k n).2) k n' = (false, (tryRecord l k n).2)
    ∧ sendCount (dispatchOne f n' (dispatchOne f n s k) k) k
        = sendCount s k + 1
    ∧ countKey (dispatchOne f n' (dispatchOne f n s k) k).ledger k = 1 := by
  have h0 : countKey l k = 0 := (hasKey_eq_false_iff _ _).mp hk
  have h2 : (tryRecord l k n).2 = l ++ [⟨k, n⟩] := by
    rw [tryRecord_of_not_hasKey n hk]
  have hcnt1 : countKey (l ++ [⟨k, n⟩]) k = 1 := by
    rw [countKey_append, h0]
    simp [countKey]
  have hkey2 : hasKey (l ++ [⟨k, n⟩]) k = true := by
    rcases hb : hasKey (l ++ [⟨k, n⟩]) k with _ | _
    · have := (hasKey_eq_false_iff _ _).mp hb
      rw [hcnt1] at this
      exact absurd this one_ne_zero
    · exact hb
  have hs0 : countKey s.ledger k = 0 := (hasKey_eq_false_iff _ _).mp hs
  have hd1c := countKey_dispatchOne f n s k k
  have hd1s := sendCount_dispatchOne f n s k k
  have hc : countKey s.ledger k = 0 ∧ k = k := ⟨hs0, rfl⟩
  rw [if_pos hc] at hd1c hd1s
  have hd2c := countKey_dispatchOne f n' (dispatchOne f n s k) k k
  have hd2s := sendCount_dispatchOne f n' (dispatchOne f n s k) k k
  have hnc : ¬ (countKey (dispatchOne f n s k).ledger k = 0 ∧ k = k) := by
    intro hcon
    rw [hd1c] at hcon
    exact one_ne_zero hcon.1
  rw [if_neg hnc] at hd2c hd2s
  refine ⟨?_, h2, ?_, ?_, ?_, ?_⟩
  · rw [h2, countKey_append]
    by_cases hkk : k = k'
    · subst hkk
      rw [h0]
      simp [countKey]
    · have : countKey [(⟨k, n⟩ : NotificationRecord)] k' = 0 := by
        simp [countKey, hkk]
      rw [this, Nat.add_zero]
      exact hk'
  · rw [tryRecord_of_not_hasKey n hk]
  · rw [h2, tryRecord_of_hasKey n' hkey2]
  · rw [hd2s, hd1s, Nat.add_zero]
  · rw [hd2c, hd1c]

/-- Witness for C3: two serialized insert attempts for the rider key of the
pickup transition of shipment #26, starting from an empty ledger. -/
theorem ledger_tryRecord_unique_witness :
    (hasKey [] (mkKey 26 Status.picked_up Role.rider) = false
      ∧ countKey [] (mkKey 26 Status.picked_up Role.admin) ≤ 1
      ∧ hasKey (⟨[], [], [], 0⟩ : DispatchState).ledger
          (mkKey 26 Status.picked_up Role.rider) = false)
    ∧ (countKey (tryRecord [] (mkKey 26 Status.picked_up Role.rider) 5).2
          (mkKey 26 Status.picked_up Role.admin) ≤ 1
      ∧ (tryRecord [] (mkKey 26 Status.picked_up Role.rider) 5).2
          = [] ++ [⟨mkKey 26 Status.picked_up Role.rider, 5⟩]
      ∧ (tryRecord [] (mkKey 26 Status.picked_up Role.rider) 5).1 = true
      ∧ tryRecord ((tryRecord [] (mkKey 26 Status.picked_up Role.rider) 5).2)
          (mkKey 26 Status.picked_up Role.rider) 6
          = (false, (tryRecord [] (mkKey 26 Status.picked_up Role.rider) 5).2)
      ∧ sendCount
          (dispatchOne allOk 6
            (dispatchOne allOk 5 (⟨[], [], [], 0⟩ : DispatchState)
              (mkKey 26 Status.picked_up Role.rider))
            (mkKey 26 Status.picked_up Role.rider))
          (mkKey 26 Status.picked_up Role.rider)
          = sendCount (⟨[], [], [], 0⟩ : DispatchState)
              (mkKey 26 Status.picked_up Role.rider) + 1
      ∧ countKey
          (dispatchOne allOk 6
            (dispatchOne allOk 5 (⟨[], [], [], 0⟩ : DispatchState)
              (mkKey 26 Status.picked_up Role.rider))
            (mkKey 26 Status.picked_up Role.rider)).ledger
          (mkKey 26 Status.picked_up Role.rider) = 1) :=
  ⟨⟨by decide, by decide, by decide⟩,
    ledger_tryRecord_unique [] (mkKey 26 Status.picked_up Role.rider)
      (mkKey 26 Status.picked_up Role.admin) 5 6 allOk ⟨[], [], [], 0⟩
      (by decide) (by decide) (by decide)⟩

/-- Claim C4: for every recipient processed by the Dispatcher, a message is
sent exactly when the NotificationRecord insert succeeds: on a fresh key the
record and one send attempt are added, while on an existing key the send is
skipped entirely and nothing changes. -/
theorem dispatch_send_iff_insert (f : NotifKey → Bool) (n : Nat)
    (s : DispatchState) (k : NotifKey) :
    (dispatchOne f n s k).sends
      = s.sends ++ (if hasKey s.ledger k then [] else [k])
    ∧ (dispatchOne f n s k).ledger
      = (if hasKey s.ledger k then s.ledger else s.ledger ++ [⟨k, n⟩])
    ∧ (dispatchOne f n s k).failures
      = s.failures
        ++ (if hasKey s.ledger k then [] else if f k then [] else [k])
    ∧ (dispatchOne f n s k).dispatchCalls = s.dispatchCalls := by
  rcases hk : hasKey s.ledger k with _ | _
  · rw [dispatchOne_of_not_hasKey f n hk]
    refine ⟨by simp, by simp, ?_, rfl⟩
    by_cases hf : f k
    · simp [hf]
    · simp [hf]
  · rw [dispatchOne_of_hasKey f n hk]
    simp [hk]

/-- Claim C5: a target that is neither reachable from the current status via
the transition table nor equal to it is rejected with reason
`illegal_transition`, leaving status, history, and the Dispatcher state
untouched. -/
theorem requestTransition_illegal (f : NotifKey → Bool) (n : Nat) (a : String)
    (target : Status) (s : SysState)
    (h1 : ¬ s.shipment.status = target)
    (h2 : legalTransition s.shipment.status target = false) :
    (requestTransition f n a target s).1.applied = false
    ∧ (requestTransition f n a target s).1.reason = some ("illegal_transition")
    ∧ (requestTransition f n a target s).2.shipment.status = s.shipment.status
    ∧ (requestTransition f n a target s).2.shipment.statusHistory
        = s.shipment.statusHistory
    ∧ (requestTransition f n a target s).2 = s := by
  rw [requestTransition_illegal_eq f n a target s h1 h2]
  exact ⟨rfl, rfl, rfl, rfl, rfl⟩

/-- Witness for C5: requesting `delivered` on a shipment still in `created`
is rejected as an illegal transition with no side effects. -/
theorem requestTransition_illegal_witness :
    (¬ exStateCreated.shipment.status = Status.delivered
      ∧ legalTransition exStateCreated.shipment.status Status.delivered = false)
    ∧ ((requestTransition allOk 3 ("admin") Status.delivered exStateCreated).1.applied = false
      ∧ (requestTransition allOk 3 ("admin") Status.delivered exStateCreated).1.reason
          = some ("illegal_transition")
      ∧ (requestTransition allOk 3 ("admin") Status.delivered exStateCreated).2.shipment.status
          = exStateCreated.shipment.status
      ∧ (requestTransition allOk 3 ("admin") Status.delivered exStateCreated).2.shipment.statusHistory
          = exStateCreated.shipment.statusHistory
      ∧ (requestTransition allOk 3 ("admin") Status.delivered exStateCreated).2
          = exStateCreated) :=
  ⟨⟨by decide, by decide⟩,
    requestTransition_illegal allOk 3 ("admin") Status.delivered exStateCreated
      (by decide) (by decide)⟩

/-- Claim C6: the invariant that `status` equals the status of the last
`statusHistory` entry is preserved by every `requestTransition`, and the
history is append-only — it is either left unchanged or extended by exactly
one new final entry. -/
theorem statusHistory_invariant (f : NotifKey → Bool) (n : Nat) (a : String)
    (target : Status) (s : SysState) (h : statusInv s.shipment) :
    statusInv (requestTransition f n a target s).2.shipment
    ∧ ((requestTransition f n a target s).2.shipment.statusHistory
          = s.shipment.statusHistory
      ∨ (requestTransition f n a target s).2.shipment.statusHistory
          = s.shipment.statusHistory ++ [⟨target, n, a⟩]) := by
  by_cases h1 : s.shipment.status = target
  · rw [requestTransition_noop f n a target s h1]
    exact ⟨h, Or.inl rfl⟩
  · rcases h2 : legalTransition s.shipment.status target with _ | _
    · rw [requestTransition_illegal_eq f n a target s h1 h2]
      exact ⟨h, Or.inl rfl⟩
    · rw [requestTransition_applies f n a target s h1 h2]
      refine ⟨?_, Or.inr rfl⟩
      simp [statusInv, List.getLast?_concat]

/-- Witness for C6: confirming pickup on shipment #26 preserves the
status-history invariant and appends exactly one entry. -/
theorem statusHistory_invariant_witness :
    statusInv exState.shipment
    ∧ (statusInv (requestTransition allOk 5 ("rider") Status.picked_up exState).2.shipment
      ∧ ((requestTransition allOk 5 ("rider") Status.picked_up exState).2.shipment.statusHistory
            = exState.shipment.statusHistory
        ∨ (requestTransition allOk 5 ("rider") Status.picked_up exState).2.shipment.statusHistory
            = exState.shipment.statusHistory ++ [⟨Status.picked_up, 5, ("rider")⟩])) :=
  ⟨by decide,
    statusHistory_invariant allOk 5 ("rider") Status.picked_up exState (by decide)⟩

/-- Claim C7: when the delivery channel fails for a recipient after the
Ledger record was created, the applied status transition is not rolled back,
the NotificationRecord stays in the ledger, exactly one send attempt was made
(no automatic retry), and the failure is surfaced. -/
theorem delivery_failure_no_rollback (f : NotifKey → Bool) (n : Nat)
    (a : String) (target : Status) (s : SysState) (r : Role)
    (hne : ¬ s.shipment.status = target)
    (hlegal : legalTransition s.shipment.status target = true)
    (hr : r ∈ recipientsFor target)
    (hfresh : hasKey s.notif.ledger (mkKey s.shipment.id target r) = false)
    (hfail : f (mkKey s.shipment.id target r) = false) :
    (requestTransition f n a target s).2.shipment.status = target
    ∧ countKey (requestTransition f n a target s).2.notif.ledger
        (mkKey s.shipment.id target r) = 1
    ∧ sendCount (requestTransition f n a target s).2.notif
        (mkKey s.shipment.id target r)
        = sendCount s.notif (mkKey s.shipment.id target r) + 1
    ∧ mkKey s.shipment.id target r
        ∈ (requestTransition f n a target s).2.notif.failures := by
  rw [requestTransition_applies f n a target s hne hlegal]
  have h0 : countKey s.notif.ledger (mkKey s.shipment.id target r) = 0 :=
    (hasKey_eq_false_iff _ _).mp hfresh
  refine ⟨rfl, ?_, ?_, ?_⟩
  · show countKey (dispatch f n s.shipment.id target s.notif).ledger
      (mkKey s.shipment.id target r) = 1
    unfold dispatch
    rw [(foldD_spec f n s.shipment.id target r (recipientsFor target) _).1]
    simp [h0, hr]
  · show sendCount (dispatch f n s.shipment.id target s.notif)
      (mkKey s.shipment.id target r)
      = sendCount s.notif (mkKey s.shipment.id target r) + 1
    unfold dispatch
    rw [(foldD_spec f n s.shipment.id target r (recipientsFor target) _).2.1]
    simp [sendCount, h0, hr]
  · show mkKey s.shipment.id target r
      ∈ (dispatch f n s.shipment.id target s.notif).failures
    unfold dispatch
    exact (foldD_spec f n s.shipment.id target r (recipientsFor target)
      _).2.2.2.2 hfail h0 hr

/-- Witness for C7: a failing channel during the pickup transition of
shipment #26 leaves the status `picked_up`, the rider record in the ledger,
one send attempt, and a surfaced failure. -/
theorem delivery_failure_no_rollback_witness :
    (¬ exState.shipment.status = Status.picked_up
      ∧ legalTransition exState.shipment.status Status.picked_up = true
      ∧ Role.rider ∈ recipientsFor Status.picked_up
      ∧ hasKey exState.notif.ledger
          (mkKey exState.shipment.id Status.picked_up Role.rider) = false
      ∧ allFail (mkKey exState.shipment.id Status.picked_up Role.rider) = false)
    ∧ ((requestTransition allFail 5 ("rider") Status.picked_up exState).2.shipment.status
          = Status.picked_up
      ∧ countKey
          (requestTransition allFail 5 ("rider") Status.picked_up exState).2.notif.ledger
          (mkKey exState.shipment.id Status.picked_up Role.rider) = 1
      ∧ sendCount
          (requestTransition allFail 5 ("rider") Status.picked_up exState).2.notif
          (mkKey exState.shipment.id Status.picked_up Role.rider)
          = sendCount exState.notif
              (mkKey exState.shipment.id Status.picked_up Role.rider) + 1
      ∧ mkKey exState.shipment.id Status.picked_up Role.rider
          ∈ (requestTransition allFail 5 ("rider") Status.picked_up exState).2.notif.failures) :=
  ⟨⟨by decide, by decide, by decide, by decide, by decide⟩,
    delivery_failure_no_rollback allFail 5 ("rider") Status.picked_up exState
      Role.rider (by decide) (by decide) (by decide) (by decide) (by decide)⟩

/-- A cached value with its write time and time-to-live in milliseconds
(`CacheEntry<T>` of the cache utility source). -/
structure CacheEntry (α : Type) where
  data : α
  timestamp : Int
  ttl : Int
deriving DecidableEq, Repr

/-- Point update of a keyed store of cache entries. -/
def setStore {α : Type} (m : String → Option (CacheEntry α)) (k : String)
    (v : Option (CacheEntry α)) : String → Option (CacheEntry α) :=
  fun q => if q = k then v else m q

/-- State of the `CacheManager`: the in-memory `Map` and the localStorage
entries.  Entries are keyed here by the raw cache key — the source prefixes
every localStorage key with the fixed string `ozu_cache_`, a bijective
renaming — and `JSON.stringify`/`JSON.parse` serialization is treated as the
identity round-trip. -/
structure CacheState (α : Type) where
  memoryCache : String → Option (CacheEntry α)
  storage : String → Option (CacheEntry α)

/-- `CacheManager.isValid`: an entry is still valid while its age
`Date.now() - entry.timestamp` is strictly below `entry.ttl`. -/
def isValid {α : Type} (now : Int) (e : CacheEntry α) : Bool :=
  decide (now - e.timestamp < e.ttl)

/-- `CacheManager.remove`: delete the key from the memory map and from
localStorage. -/
def cmRemove {α : Type} (s : CacheState α) (k : String) : CacheState α :=
  { memoryCache := setStore s.memoryCache k none
    storage := setStore s.storage k none }

/-- The localStorage half of `CacheManager.get`: a valid stored entry is
promoted into the memory map and its data returned; an expired stored entry
is removed; otherwise the lookup misses. -/
def cmGetStorage {α : Type} (now : Int) (s : CacheState α) (k : String) :
    Option α × CacheState α :=
  match s.storage k with
  | some e =>
    if isValid now e then
      (some e.data, { s with memoryCache := setStore s.memoryCache k (some e) })
    else
      (none, cmRemove s k)
  | none => (none, s)

/-- `CacheManager.get`: check the memory map first and return its data while
valid; otherwise fall back to the localStorage lookup. -/
def cmGet {α : Type} (now : Int) (s : CacheState α) (k : String) :
    Option α × CacheState α :=
  match s.memoryCache k with
  | some e => if isValid now e then (some e.data, s) else cmGetStorage now s k
  | none => cmGetStorage now s k

/-- `CacheManager.set`: write the entry `{data, timestamp: Date.now(), ttl}`
into the memory map unconditionally, and into localStorage when the
`localStorage.setItem` call succeeds (`lsOk`; the source swallows a
quota/disabled failure there). -/
def cmSet {α : Type} (now : Int) (lsOk : Bool) (s : CacheState α) (k : String)
    (d : α) (ttlMs : Int) : CacheState α :=
  { memoryCache := setStore s.memoryCache k (some ⟨d, now, ttlMs⟩)
    storage :=
      if lsOk then setStore s.storage k (some ⟨d, now, ttlMs⟩) else s.storage }

/-- Whether an optional cache entry is absent or already expired at `now`
(age at least its ttl). -/
def expiredOpt {α : Type} (now : Int) : Option (CacheEntry α) → Bool
  | none => true
  | some e => decide (e.ttl ≤ now - e.timestamp)

/-- Claim C8: immediately after `CacheManager.set(key, data, ttlMs)`, a
`CacheManager.get(key)` performed while fewer than `ttlMs` milliseconds have
elapsed (and with no intervening removal) returns that same data, whether or
not the localStorage write succeeded. -/
theorem cache_set_get_roundtrip {α : Type} (now now' : Int) (lsOk : Bool)
    (s : CacheState α) (k : String) (d : α) (ttlMs : Int)
    (hpos : 0 < ttlMs) (helapsed : now' - now < ttlMs) :
    (cmGet now' (cmSet now lsOk s k d ttlMs) k).1 = some d := by
  simp [cmGet, cmSet, setStore, isValid, helapsed]

/-- Witness for C8: a value cached at time 0 with a 5 ms ttl is returned by a
get at time 3. -/
theorem cache_set_get_roundtrip_witness :
    ((0 : Int) < 5 ∧ (3 : Int) - 0 < 5)
    ∧ (cmGet 3
        (cmSet 0 true
          (⟨fun _ => none, fun _ => none⟩ : CacheState Nat) ("riders_live") 42 5)
        ("riders_live")).1 = some 42 :=
  ⟨⟨by decide, by decide⟩,
    cache_set_get_roundtrip 0 3 true ⟨fun _ => none, fun _ => none⟩
      ("riders_live") 42 5 (by decide) (by decide)⟩

/-- Claim C9: `CacheManager.get` never returns expired data — when the memory
entry for the key is absent or expired and the localStorage entry for it is
expired, the get returns `null` and removes the expired stored entry from
both the memory map and localStorage as a side effect. -/
theorem cache_get_never_expired {α : Type} (now : Int) (s : CacheState α)
    (k : String) (e0 : CacheEntry α)
    (hm : expiredOpt now (s.memoryCache k) = true)
    (he : s.storage k = some e0)
    (hexp : e0.ttl ≤ now - e0.timestamp) :
    (cmGet now s k).1 = none
    ∧ (cmGet now s k).2.memoryCache k = none
    ∧ (cmGet now s k).2.storage k = none := by
  have hinvalid0 : isValid now e0 = false := by
    simp only [isValid, decide_eq_false_iff_not, not_lt]
    exact hexp
  have hstor : cmGetStorage now s k = (none, cmRemove s k) := by
    simp [cmGetStorage, he, hinvalid0]
  have hget : cmGet now s k = (none, cmRemove s k) := by
    rcases hmc : s.memoryCache k with _ | e
    · simp [cmGet, hmc, hstor]
    · have hie : isValid now e = false := by
        rw [hmc] at hm
        simp only [expiredOpt, decide_eq_true_eq] at hm
        simp only [isValid, decide_eq_false_iff_not, not_lt]
        exact hm
      simp [cmGet, hmc, hie, hstor]
  rw [hget]
  refine ⟨rfl, ?_, ?_⟩
  · show (cmRemove s k).memoryCache k = none
    simp [cmRemove, setStore]
  · show (cmRemove s k).storage k = none
    simp [cmRemove, setStore]

/-- Witness for C9: an entry written at time 0 with a 5 ms ttl is expired at
time 10 — the get misses and clears it from both stores. -/
theorem cache_get_never_expired_witness :
    (expiredOpt 10
        ((⟨fun _ => none,
            fun q => if q = ("issues_pending") then some ⟨7, 0, 5⟩ else none⟩ :
          CacheState Nat).memoryCache ("issues_pending")) = true
      ∧ (⟨fun _ => none,
            fun q => if q = ("issues_pending") then some ⟨7, 0, 5⟩ else none⟩ :
          CacheState Nat).storage ("issues_pending") = some ⟨7, 0, 5⟩
      ∧ (⟨(7 : Nat), 0, 5⟩ : CacheEntry Nat).ttl
          ≤ 10 - (⟨(7 : Nat), 0, 5⟩ : CacheEntry Nat).timestamp)
    ∧ ((cmGet 10
          (⟨fun _ => none,
              fun q => if q = ("issues_pending") then some ⟨7, 0, 5⟩ else none⟩ :
            CacheState Nat) ("issues_pending")).1 = none
      ∧ (cmGet 10
          (⟨fun _ => none,
              fun q => if q = ("issues_pending") then some ⟨7, 0, 5⟩ else none⟩ :
            CacheState Nat) ("issues_pending")).2.memoryCache ("issues_pending")
          = none
      ∧ (cmGet 10
          (⟨fun _ => none,
              fun q => if q = ("issues_pending") then some ⟨7, 0, 5⟩ else none⟩ :
            CacheState Nat) ("issues_pending")).2.storage ("issues_pending")
          = none) :=
  ⟨⟨by decide, by decide, by decide⟩,
    cache_get_never_expired 10
      ⟨fun _ => none,
        fun q => if q = ("issues_pending") then some ⟨7, 0, 5⟩ else none⟩
      ("issues_pending") ⟨7, 0, 5⟩ (by decide) (by decide) (by decide)⟩

/-- An HTTP response as observed by the client code: numeric status, status
text, and the body payload (`res.json()` read abstractly as the body). -/
structure HttpResponse where
  status : Nat
  statusText : String
  body : String
deriving DecidableEq, Repr

/-- `Response.ok` of fetch: the status lies in the 200–299 range. -/
def respOk (r : HttpResponse) : Bool :=
  decide (200 ≤ r.status ∧ r.status < 300)

/-- The backend as observed through `authenticatedFetch`: a map from request
path to the HTTP response it produces. -/
def Backend : Type := String → HttpResponse

/-- The error text `${res.status} ${res.statusText}` thrown by the API
helpers on a non-ok response. -/
def errMsg (r : HttpResponse) : String :=
  toString r.status ++ (" ") ++ r.statusText

/-- `IssuesAPI.getPending` (src/src/lib/api.ts): GET
`/shipments/issues/pending`, returning the body on an ok response and
throwing otherwise. -/
def getPending (env : Backend) : Except String String :=
  let r := env ("/shipments/issues/pending")
  if respOk r then Except.ok r.body else Except.error (errMsg r)

/-- `IssuesAPI.getAll` (src/src/lib/api.ts): GET `/shipments/issues/all`;
on a non-ok response it falls back to `getPending` when the status is 404
and throws otherwise. -/
def getAll (env : Backend) : Except String String :=
  let r := env ("/shipments/issues/all")
  if respOk r then Except.ok r.body
  else if r.status = 404 then getPending env
  else Except.error (errMsg r)

/-- Claim C10: `IssuesAPI.getAll` degrades rather than fails on a missing
endpoint — a 404 from `/shipments/issues/all` makes it return the result of
`IssuesAPI.getPending` instead of throwing, while any other non-ok status
makes it throw. -/
theorem issues_getAll_404_fallback (env1 env2 : Backend)
    (h404 : (env1 ("/shipments/issues/all")).status = 404)
    (hnotok : respOk (env2 ("/shipments/issues/all")) = false)
    (hne : ¬ (env2 ("/shipments/issues/all")).status = 404) :
    getAll env1 = getPending env1
    ∧ getAll env2 = Except.error (errMsg (env2 ("/shipments/issues/all"))) := by
  constructor
  · have hnotok1 : respOk (env1 ("/shipments/issues/all")) = false := by
      simp [respOk, h404]
    simp [getAll, hnotok1, h404]
  · simp [getAll, hnotok, hne]

/-- Witness for C10: a backend answering 404 on the `/all` endpoint falls
back to the pending endpoint; one answering 500 makes `getAll` throw. -/
theorem issues_getAll_404_fallback_witness :
    (((fun _ => ⟨404, ("Not Found"), ("")⟩ : Backend)
        ("/shipments/issues/all")).status = 404
      ∧ respOk ((fun p =>
            if p = ("/shipments/issues/all") then ⟨500, ("Server Error"), ("")⟩
            else ⟨200, ("OK"), ("pending")⟩ : Backend)
          ("/shipments/issues/all")) = false
      ∧ ¬ ((fun p =>
            if p = ("/shipments/issues/all") then ⟨500, ("Server Error"), ("")⟩
            else ⟨200, ("OK"), ("pending")⟩ : Backend)
          ("/shipments/issues/all")).status = 404)
    ∧ (getAll (fun _ => ⟨404, ("Not Found"), ("")⟩ : Backend)
        = getPending (fun _ => ⟨404, ("Not Found"), ("")⟩ : Backend)
      ∧ getAll (fun p =>
            if p = ("/shipments/issues/all") then ⟨500, ("Server Error"), ("")⟩
            else ⟨200, ("OK"), ("pending")⟩ : Backend)
          = Except.error (errMsg ((fun p =>
              if p = ("/shipments/issues/all") then ⟨500, ("Server Error"), ("")⟩
              else ⟨200, ("OK"), ("pending")⟩ : Backend)
            ("/shipments/issues/all")))) :=
  ⟨⟨by decide, by decide, by decide⟩,
    issues_getAll_404_fallback (fun _ => ⟨404, ("Not Found"), ("")⟩)
      (fun p =>
        if p = ("/shipments/issues/all") then ⟨500, ("Server Error"), ("")⟩
        else ⟨200, ("OK"), ("pending")⟩)
      (by decide) (by decide) (by decide)⟩

end Ozu
